import Mathlib

/-!
Shallow embedding of `src/python/paddle/nn/layer/conv.py` (PaddlePaddle
convolution layer classes) and proofs about its configuration-resolution
logic: parameter normalization, padding-mode handling, grouped-channel
validation, weight-shape derivation, and the per-call forward geometry
passed to the backend primitives.

Python integers are modelled as `Int`; Python floor division `//` is
`Int.fdiv` and Python `%` is `Int.fmod` (both round toward negative
infinity, exactly like Python). Exceptions are modelled by `Except Err`.
The external parameter-allocation facility (`create_parameter`) and the
backend primitives (`F.pad`, `F.convNd`, `F.conv_transposeNd`) are out of
scope per the layer code itself: construction records the shapes it
allocates as `Event`s, and each `forward` is embedded as the fully
resolved argument record it hands to the backend primitive.
-/

namespace PaddleConv

/-- Errors raised by the layer code. The Python source raises `ValueError`
or `TypeError` for malformed scalar arguments; both are modelled as
`invalidParameter` carrying the message. Length mismatches detected by the
dimension-list normalizer are `shapeMismatch` carrying the parameter name. -/
inductive Err
  | invalidParameter (msg : String)
  | shapeMismatch (param : String)
  deriving Repr, DecidableEq, Inhabited

/-- A Python argument that is either a scalar int or a sequence of ints
(used for `kernel_size`, `stride`, `dilation`). -/
inductive ScalarOrList
  | scalar (n : Int)
  | seq (l : List Int)
  deriving Repr, DecidableEq, Inhabited

/-- The five runtime forms a Python `padding` argument can take: a single
int, an algorithm string, a flat list of ints, or a list of
(before, after) pairs. -/
inductive PaddingArg
  | int (k : Int)
  | str (s : String)
  | ints (l : List Int)
  | pairs (l : List (Int × Int))
  deriving Repr, DecidableEq, Inhabited

/-- Mirrors Python `isinstance(padding, np.int)`. -/
def PaddingArg.isInt : PaddingArg → Bool
  | .int _ => true
  | _ => false

/-- Modelled from the spec: `utils.convert_to_list` lives in
`paddle/fluid/layers/utils.py`, which is not under `src/`. Per the spec's
DimListNormalizer contract, a scalar is replicated `n` times and a
sequence must have length exactly `n`, otherwise the call fails with a
ShapeMismatch error naming the parameter. -/
def convert_to_list (value : ScalarOrList) (n : Nat) (name : String) :
    Except Err (List Int) :=
  match value with
  | .scalar s => .ok (List.replicate n s)
  | .seq l => if l.length = n then .ok l else .error (.shapeMismatch name)

/-- Modelled from the spec: the same normalizer applied to a `padding`
argument. A scalar int replicates; a flat int list must have length
exactly `n` (ShapeMismatch otherwise); string and pair forms are rejected
by the normalizer's entry validation (InvalidParameter). -/
def convert_padding_to_list (p : PaddingArg) (n : Nat) (name : String) :
    Except Err (List Int) :=
  match p with
  | .int k => .ok (List.replicate n k)
  | .ints l => if l.length = n then .ok l else .error (.shapeMismatch name)
  | .str _ => .error (.invalidParameter name)
  | .pairs _ => .error (.invalidParameter name)

/-- Embeds `_reverse_repeat_list(t, n)`:
`list(x for x in reversed(t) for _ in range(n))` — reverse the order of
`t` and repeat each element `n` times. -/
def _reverse_repeat_list (t : List Int) (n : Nat) : List Int :=
  (t.reverse).flatMap (fun x => List.replicate n x)

/-- The `valid_padding_modes` set of `_ConvNd.__init__` and
`Conv1d.__init__`. -/
def validPaddingModes : List String := ["zeros", "reflect", "replicate", "circular"]

/-- The non-zero padding-mode set checked by both constructors. -/
def nonzeroPaddingModes : List String := ["reflect", "replicate", "circular"]

/-- The attributes `_ConvNd.__init__` stores on `self` (parameter-attr
machinery omitted as external). `reversed_padding_repeated_twice` is
`none` when the Python attribute `_reversed_padding_repeated_twice` is
never assigned (transposed layers, or padding_mode zeros). -/
structure ConvNdConfig where
  groups : Int
  in_channels : Int
  out_channels : Int
  data_format : String
  stride : List Int
  dilation : List Int
  kernel_size : List Int
  padding : PaddingArg
  padding_mode : String
  output_padding : PaddingArg
  reversed_padding_repeated_twice : Option (List Int)
  weight_shape : List Int
  bias_shape : List Int
  deriving Repr, DecidableEq, Inhabited

/-- Observable allocation-relevant events during construction, in program
order: computing the weight (filter) shape, and each `create_parameter`
call. -/
inductive Event
  | weightShapeComputed (shape : List Int)
  | paramAllocated (shape : List Int)
  deriving Repr, DecidableEq, Inhabited

/-- Embeds `_ConvNd.__init__` statement by statement (parameter-attr
arguments omitted as external). Returns the constructed configuration or
the raised error, paired with the list of allocation events that executed
before returning/raising. -/
def ConvNdInit (in_channels out_channels : Int) (kernel_size : ScalarOrList)
    (transposed : Bool) (dims : Nat) (stride : ScalarOrList)
    (padding : PaddingArg) (padding_mode : String)
    (output_padding : PaddingArg) (dilation : ScalarOrList)
    (groups : Int) (data_format : String) :
    Except Err ConvNdConfig × List Event :=
  if ¬ validPaddingModes.contains padding_mode then
    (.error (.invalidParameter "padding_mode must be one of valid_padding_modes"), [])
  else if nonzeroPaddingModes.contains padding_mode ∧ ¬ padding.isInt then
    (.error (.invalidParameter "when padding_mode in nonzero modes, type of padding must be int"), [])
  else
    match convert_to_list stride dims "stride" with
    | .error e => (.error e, [])
    | .ok stride0 =>
      match convert_to_list dilation dims "dilation" with
      | .error e => (.error e, [])
      | .ok dilation0 =>
        match convert_to_list kernel_size dims "kernel_size" with
        | .error e => (.error e, [])
        | .ok kernel0 =>
          if transposed then
            let filter_shape := [in_channels, Int.fdiv out_channels groups] ++ kernel0
            (.ok { groups, in_channels, out_channels, data_format,
                   stride := stride0, dilation := dilation0, kernel_size := kernel0,
                   padding, padding_mode, output_padding,
                   reversed_padding_repeated_twice := none,
                   weight_shape := filter_shape,
                   bias_shape := [out_channels] },
             [.weightShapeComputed filter_shape,
              .paramAllocated filter_shape,
              .paramAllocated [out_channels]])
          else
            if Int.fmod in_channels groups ≠ 0 then
              (.error (.invalidParameter "in_channels must be divisible by groups."), [])
            else
              match (if nonzeroPaddingModes.contains padding_mode then
                       (convert_padding_to_list padding dims "padding").map
                         (fun l => some (_reverse_repeat_list l 2))
                     else .ok none) with
              | .error e => (.error e, [])
              | .ok rprt =>
                let filter_shape := [out_channels, Int.fdiv in_channels groups] ++ kernel0
                (.ok { groups, in_channels, out_channels, data_format,
                       stride := stride0, dilation := dilation0, kernel_size := kernel0,
                       padding, padding_mode, output_padding,
                       reversed_padding_repeated_twice := rprt,
                       weight_shape := filter_shape,
                       bias_shape := [out_channels] },
                 [.weightShapeComputed filter_shape,
                  .paramAllocated filter_shape,
                  .paramAllocated [out_channels]])

/-- Symbolic tensors: an arbitrary input, or the result of a call to the
backend pre-padding primitive `F.pad(x, pad, mode, data_format)`. -/
inductive Tensor
  | var (n : Nat)
  | padded (t : Tensor) (pad : PaddingArg) (mode : String) (data_format : String)
  deriving Repr, DecidableEq, Inhabited

/-- Attributes stored by `Conv1d.__init__` (a standalone class, not a
`_ConvNd` subclass). After construction `padding` holds either the
original algorithm string or the normalized list doubled by `* 2`. -/
structure Conv1dConfig where
  in_channels : Int
  out_channels : Int
  groups : Int
  kernel_size : List Int
  stride : List Int
  dilation : List Int
  padding : PaddingArg
  padding_mode : String
  data_format : String
  bias : Bool
  weight_shape : List Int
  deriving Repr, DecidableEq, Inhabited

/-- Embeds `Conv1d.__init__` statement by statement. -/
def Conv1dInit (in_channels out_channels : Int) (kernel_size : ScalarOrList)
    (stride : ScalarOrList) (padding : PaddingArg) (dilation : ScalarOrList)
    (groups : Int) (padding_mode : String) (bias : Bool)
    (data_format : String) : Except Err Conv1dConfig × List Event :=
  if Int.fmod in_channels groups ≠ 0 then
    (.error (.invalidParameter "in_channels must be divisible by groups."), [])
  else
    match convert_to_list kernel_size 1 "kernel_size" with
    | .error e => (.error e, [])
    | .ok kernel0 =>
      match convert_to_list stride 1 "stride" with
      | .error e => (.error e, [])
      | .ok stride0 =>
        match convert_to_list dilation 1 "dilation" with
        | .error e => (.error e, [])
        | .ok dilation0 =>
          if ¬ validPaddingModes.contains padding_mode then
            (.error (.invalidParameter "padding_mode must be one of valid_padding_modes"), [])
          else if nonzeroPaddingModes.contains padding_mode ∧ ¬ padding.isInt then
            (.error (.invalidParameter "when padding_mode in nonzero modes, type of padding must be int"), [])
          else
            match ((match padding with
                    | .str s => .ok (PaddingArg.str s)
                    | p => (convert_padding_to_list p 1 "padding").map
                             (fun l => PaddingArg.ints (l ++ l))) :
                    Except Err PaddingArg) with
            | .error e => (.error e, [])
            | .ok padding0 =>
              let num_filter_channels := Int.fdiv in_channels groups
              let filter_shape := [out_channels, num_filter_channels] ++ kernel0
              (.ok { in_channels, out_channels, groups,
                     kernel_size := kernel0, stride := stride0,
                     dilation := dilation0, padding := padding0,
                     padding_mode, data_format, bias,
                     weight_shape := filter_shape },
               [.weightShapeComputed filter_shape,
                .paramAllocated filter_shape] ++
               (if bias then [.paramAllocated [out_channels]] else []))

/-- Attributes stored by `ConvTranspose1d.__init__` (a standalone class,
not a `_ConvNd` subclass). -/
structure ConvTranspose1dConfig where
  groups : Int
  in_channels : Int
  out_channels : Int
  output_padding : PaddingArg
  data_format : String
  bias : Bool
  stride : List Int
  dilation : List Int
  kernel_size : List Int
  padding : PaddingArg
  weight_shape : List Int
  deriving Repr, DecidableEq, Inhabited

/-- Embeds `ConvTranspose1d.__init__` statement by statement. -/
def ConvTranspose1dInit (in_channels out_channels : Int)
    (kernel_size : ScalarOrList) (stride : ScalarOrList)
    (padding : PaddingArg) (output_padding : PaddingArg) (groups : Int)
    (bias : Bool) (dilation : ScalarOrList) (data_format : String) :
    Except Err ConvTranspose1dConfig × List Event :=
  match convert_to_list stride 1 "stride" with
  | .error e => (.error e, [])
  | .ok stride0 =>
    match convert_to_list dilation 1 "dilation" with
    | .error e => (.error e, [])
    | .ok dilation0 =>
      match convert_to_list kernel_size 1 "kernel_size" with
      | .error e => (.error e, [])
      | .ok kernel0 =>
        let filter_shape := [in_channels, Int.fdiv out_channels groups] ++ kernel0
        (.ok { groups, in_channels, out_channels, output_padding,
               data_format, bias, stride := stride0, dilation := dilation0,
               kernel_size := kernel0, padding,
               weight_shape := filter_shape },
         [.weightShapeComputed filter_shape,
          .paramAllocated filter_shape] ++
         (if bias then [.paramAllocated [out_channels]] else []))

/-- Embeds `Conv2d.__init__`: delegates to `_ConvNd.__init__` with
`transposed = False`, `dims = 2`, and the default `output_padding = 0`. -/
def Conv2dInit (in_channels out_channels : Int) (kernel_size : ScalarOrList)
    (stride : ScalarOrList) (padding : PaddingArg) (dilation : ScalarOrList)
    (groups : Int) (padding_mode : String) (data_format : String) :
    Except Err ConvNdConfig × List Event :=
  ConvNdInit in_channels out_channels kernel_size false 2 stride padding
    padding_mode (.int 0) dilation groups data_format

/-- Embeds `Conv3d.__init__` (note the source's argument order puts
`padding` before `stride`): delegates with `transposed = False`,
`dims = 3`, default `output_padding = 0`. -/
def Conv3dInit (in_channels out_channels : Int) (kernel_size : ScalarOrList)
    (padding : PaddingArg) (stride : ScalarOrList) (dilation : ScalarOrList)
    (groups : Int) (padding_mode : String) (data_format : String) :
    Except Err ConvNdConfig × List Event :=
  ConvNdInit in_channels out_channels kernel_size false 3 stride padding
    padding_mode (.int 0) dilation groups data_format

/-- Embeds `ConvTranspose2d.__init__`: delegates with `transposed = True`,
`dims = 2`. The constructor exposes no `padding_mode` parameter, so the
base default "zeros" is used. -/
def ConvTranspose2dInit (in_channels out_channels : Int)
    (kernel_size : ScalarOrList) (stride : ScalarOrList)
    (padding : PaddingArg) (output_padding : PaddingArg)
    (dilation : ScalarOrList) (groups : Int) (data_format : String) :
    Except Err ConvNdConfig × List Event :=
  ConvNdInit in_channels out_channels kernel_size true 2 stride padding
    "zeros" output_padding dilation groups data_format

/-- Embeds `ConvTranspose3d.__init__`: delegates with `transposed = True`,
`dims = 3`. The constructor exposes no `padding_mode` parameter, so the
base default "zeros" is used. -/
def ConvTranspose3dInit (in_channels out_channels : Int)
    (kernel_size : ScalarOrList) (stride : ScalarOrList)
    (padding : PaddingArg) (output_padding : PaddingArg)
    (dilation : ScalarOrList) (groups : Int) (data_format : String) :
    Except Err ConvNdConfig × List Event :=
  ConvNdInit in_channels out_channels kernel_size true 3 stride padding
    "zeros" output_padding dilation groups data_format

/-- The argument record `Conv1d.forward` hands to `F.conv1d` (weight and
bias handles omitted as external). `padding` is the local variable the
source passes explicitly. -/
structure Conv1dCall where
  input : Tensor
  padding : PaddingArg
  stride : List Int
  dilation : List Int
  groups : Int
  data_format : String
  deriving Repr, DecidableEq, Inhabited

/-- Embeds `Conv1d.forward`: non-zero padding mode first pre-pads via
`F.pad` with the stored padding and mode and leaves the local `padding`
at its initial value 0; zeros mode passes the stored padding through. -/
def Conv1dForward (self : Conv1dConfig) (x : Tensor) : Conv1dCall :=
  let padding := PaddingArg.int 0
  if self.padding_mode ≠ "zeros" then
    let x := Tensor.padded x self.padding self.padding_mode self.data_format
    { input := x, padding, stride := self.stride, dilation := self.dilation,
      groups := self.groups, data_format := self.data_format }
  else
    let padding := self.padding
    { input := x, padding, stride := self.stride, dilation := self.dilation,
      groups := self.groups, data_format := self.data_format }

/-- The argument record `Conv2d.forward` / `Conv3d.forward` hand to
`F.conv2d` / `F.conv3d`. In the non-zero-mode branch the source omits the
`padding` keyword entirely; that omission is recorded as `none`. -/
structure ConvNdCall where
  input : Tensor
  padding : Option PaddingArg
  stride : List Int
  dilation : List Int
  groups : Int
  data_format : String
  deriving Repr, DecidableEq, Inhabited

/-- Modelled from the spec: the functional primitives `F.conv2d` /
`F.conv3d` (outside `src/`) default their `padding` parameter to 0 when
the call site omits it; the spec states convolution-native padding is
then forced to 0. -/
def ConvNdCall.nativePadding (c : ConvNdCall) : PaddingArg :=
  c.padding.getD (.int 0)

/-- Embeds `Conv2d.forward`. Reading the conditionally-set attribute
`_reversed_padding_repeated_twice` when it was never assigned is a raised
`AttributeError`, modelled as an error result. -/
def Conv2dForward (self : ConvNdConfig) (x : Tensor) : Except Err ConvNdCall :=
  if self.padding_mode ≠ "zeros" then
    match self.reversed_padding_repeated_twice with
    | none => .error (.invalidParameter "AttributeError: _reversed_padding_repeated_twice")
    | some rp =>
      let x := Tensor.padded x (.ints rp) self.padding_mode self.data_format
      .ok { input := x, padding := none, stride := self.stride,
            dilation := self.dilation, groups := self.groups,
            data_format := self.data_format }
  else
    .ok { input := x, padding := some self.padding, stride := self.stride,
          dilation := self.dilation, groups := self.groups,
          data_format := self.data_format }

/-- Embeds `Conv3d.forward`, textually identical to `Conv2d.forward` up
to the backend primitive name. -/
def Conv3dForward (self : ConvNdConfig) (x : Tensor) : Except Err ConvNdCall :=
  if self.padding_mode ≠ "zeros" then
    match self.reversed_padding_repeated_twice with
    | none => .error (.invalidParameter "AttributeError: _reversed_padding_repeated_twice")
    | some rp =>
      let x := Tensor.padded x (.ints rp) self.padding_mode self.data_format
      .ok { input := x, padding := none, stride := self.stride,
            dilation := self.dilation, groups := self.groups,
            data_format := self.data_format }
  else
    .ok { input := x, padding := some self.padding, stride := self.stride,
          dilation := self.dilation, groups := self.groups,
          data_format := self.data_format }

/-- The argument record the transposed forwards hand to
`F.conv_transpose1d` / `F.conv_transpose2d` / `F.conv_transpose3d`. -/
structure ConvTransposeCall where
  input : Tensor
  output_size : Option (List Int)
  output_padding : PaddingArg
  padding : PaddingArg
  stride : List Int
  dilation : List Int
  groups : Int
  data_format : String
  deriving Repr, DecidableEq, Inhabited

/-- Embeds `ConvTranspose1d.forward`: passes `self._output_padding` to the
backend unconditionally, whether or not `output_size` is supplied. -/
def ConvTranspose1dForward (self : ConvTranspose1dConfig) (x : Tensor)
    (output_size : Option (List Int)) : ConvTransposeCall :=
  { input := x, output_size, output_padding := self.output_padding,
    padding := self.padding, stride := self.stride,
    dilation := self.dilation, groups := self.groups,
    data_format := self.data_format }

/-- Embeds `ConvTranspose2d.forward`: `output_padding` is the stored value
when `output_size is None`, and the literal 0 otherwise. -/
def ConvTranspose2dForward (self : ConvNdConfig) (x : Tensor)
    (output_size : Option (List Int)) : ConvTransposeCall :=
  let output_padding := match output_size with
    | none => self.output_padding
    | some _ => PaddingArg.int 0
  { input := x, output_size, output_padding, padding := self.padding,
    stride := self.stride, dilation := self.dilation,
    groups := self.groups, data_format := self.data_format }

/-- Embeds `ConvTranspose3d.forward`, identical in body to the 2d variant
(the source makes `output_size` a required argument here). -/
def ConvTranspose3dForward (self : ConvNdConfig) (x : Tensor)
    (output_size : Option (List Int)) : ConvTransposeCall :=
  let output_padding := match output_size with
    | none => self.output_padding
    | some _ => PaddingArg.int 0
  { input := x, output_size, output_padding, padding := self.padding,
    stride := self.stride, dilation := self.dilation,
    groups := self.groups, data_format := self.data_format }

/-- State-threaded `Conv2d.forward`: the Python method only reads `self`
(it contains no assignment to any `self` attribute), so the embedding
reads the configuration from the state and returns the resolved call. -/
def Conv2dForwardSt (x : Tensor) :
    StateM ConvNdConfig (Except Err ConvNdCall) := do
  let self ← get
  pure (Conv2dForward self x)

/-- State-threaded `ConvTranspose2d.forward`: likewise read-only on
`self`. -/
def ConvTranspose2dForwardSt (x : Tensor) (output_size : Option (List Int)) :
    StateM ConvNdConfig ConvTransposeCall := do
  let self ← get
  pure (ConvTranspose2dForward self x output_size)

/-! ### Helper lemmas -/

theorem convert_to_list_length (v : ScalarOrList) (n : Nat) (name : String)
    (l : List Int) (h : convert_to_list v n name = .ok l) : l.length = n := by
  cases v with
  | scalar s =>
    simp only [convert_to_list, Except.ok.injEq] at h
    simp [← h]
  | seq l0 =>
    simp only [convert_to_list] at h
    split at h
    · next hlen => cases h; exact hlen
    · cases h

theorem contains_nonzero_valid (pm : String)
    (h : nonzeroPaddingModes.contains pm = true) :
    validPaddingModes.contains pm = true := by
  simp only [nonzeroPaddingModes, validPaddingModes, List.contains_cons,
    List.contains_nil, Bool.or_eq_true, beq_iff_eq] at h ⊢
  tauto

theorem reverse_repeat_list_replicate (d : Nat) (k : Int) :
    _reverse_repeat_list (List.replicate d k) 2 = List.replicate (2 * d) k := by
  induction d with
  | zero => rfl
  | succ n ih =>
    have h2 : 2 * (n + 1) = 2 * n + 2 := by ring
    simp only [_reverse_repeat_list, List.replicate_succ, List.reverse_cons,
      List.flatMap_append, List.flatMap_cons, List.flatMap_nil] at ih ⊢
    rw [ih, h2, List.replicate_add]
    simp [List.replicate]

/-- Inversion of a successful `_ConvNd.__init__`: the normalized lists
exist and the configuration is exactly the record the constructor built. -/
theorem ConvNdInit_ok_inv (ic oc : Int) (ks : ScalarOrList) (tr : Bool)
    (dims : Nat) (st : ScalarOrList) (pad : PaddingArg) (pm : String)
    (op : PaddingArg) (dl : ScalarOrList) (g : Int) (df : String)
    (cfg : ConvNdConfig)
    (h : (ConvNdInit ic oc ks tr dims st pad pm op dl g df).1 = .ok cfg) :
    ∃ st0 dl0 k0 rprt,
      convert_to_list st dims "stride" = .ok st0 ∧
      convert_to_list dl dims "dilation" = .ok dl0 ∧
      convert_to_list ks dims "kernel_size" = .ok k0 ∧
      ((tr = true ∨ nonzeroPaddingModes.contains pm = false) → rprt = none) ∧
      (tr = false → nonzeroPaddingModes.contains pm = true →
        ∃ pl, convert_padding_to_list pad dims "padding" = .ok pl ∧
          rprt = some (_reverse_repeat_list pl 2)) ∧
      cfg = { groups := g, in_channels := ic, out_channels := oc,
              data_format := df, stride := st0, dilation := dl0,
              kernel_size := k0, padding := pad, padding_mode := pm,
              output_padding := op,
              reversed_padding_repeated_twice := rprt,
              weight_shape :=
                (if tr then [ic, Int.fdiv oc g] else [oc, Int.fdiv ic g]) ++ k0,
              bias_shape := [oc] } := by
  unfold ConvNdInit at h
  split at h
  · simp at h
  · split at h
    · simp at h
    · split at h
      · simp at h
      · next st0 hst =>
        split at h
        · simp at h
        · next dl0 hdl =>
          split at h
          · simp at h
          · next k0 hks =>
            split at h
            · next htr =>
              simp only [Except.ok.injEq] at h
              refine ⟨st0, dl0, k0, none, hst, hdl, hks, ?_, ?_, ?_⟩
              · intro _; rfl
              · intro hf _
                rw [htr] at hf
                simp at hf
              · rw [← h]
                simp [htr]
            · next htr =>
              have htr' : tr = false := by
                cases tr
                · rfl
                · exact absurd rfl htr
              split at h
              · simp at h
              · split at h
                · simp at h
                · next rprt hr =>
                  simp only [Except.ok.injEq] at h
                  split at hr
                  · next hnz =>
                    cases hp : convert_padding_to_list pad dims "padding" with
                    | error e =>
                      rw [hp] at hr
                      simp [Except.map] at hr
                    | ok pl =>
                      rw [hp] at hr
                      simp only [Except.map, Except.ok.injEq] at hr
                      refine ⟨st0, dl0, k0, rprt, hst, hdl, hks, ?_, ?_, ?_⟩
                      · intro hcase
                        rcases hcase with hT | hF
                        · rw [hT] at htr'; simp at htr'
                        · rw [hF] at hnz; simp at hnz
                      · intro _ _
                        exact ⟨pl, rfl, hr.symm⟩
                      · rw [← h]
                        simp [htr']
                  · next hnz =>
                    simp only [Except.ok.injEq] at hr
                    refine ⟨st0, dl0, k0, rprt, hst, hdl, hks, ?_, ?_, ?_⟩
                    · intro _; exact hr.symm
                    · intro _ hc; exact absurd hc hnz
                    · rw [← h]
                      simp [htr']

/-- Inversion of a successful `Conv1d.__init__`. -/
theorem Conv1dInit_ok_inv (ic oc : Int) (ks st : ScalarOrList)
    (pad : PaddingArg) (dl : ScalarOrList) (g : Int) (pm : String) (b : Bool)
    (df : String) (cfg : Conv1dConfig)
    (h : (Conv1dInit ic oc ks st pad dl g pm b df).1 = .ok cfg) :
    ∃ k0 st0 dl0 pad0,
      convert_to_list ks 1 "kernel_size" = .ok k0 ∧
      convert_to_list st 1 "stride" = .ok st0 ∧
      convert_to_list dl 1 "dilation" = .ok dl0 ∧
      cfg = { in_channels := ic, out_channels := oc, groups := g,
              kernel_size := k0, stride := st0, dilation := dl0,
              padding := pad0, padding_mode := pm, data_format := df,
              bias := b,
              weight_shape := [oc, Int.fdiv ic g] ++ k0 } := by
  unfold Conv1dInit at h
  split at h
  · simp at h
  · split at h
    · simp at h
    · next k0 hks =>
      split at h
      · simp at h
      · next st0 hst =>
        split at h
        · simp at h
        · next dl0 hdl =>
          split at h
          · simp at h
          · split at h
            · simp at h
            · split at h
              · simp at h
              · next pad0 hp =>
                simp only [Except.ok.injEq] at h
                exact ⟨k0, st0, dl0, pad0, hks, hst, hdl, h.symm⟩

/-- Inversion of a successful `ConvTranspose1d.__init__`. -/
theorem ConvTranspose1dInit_ok_inv (ic oc : Int) (ks st : ScalarOrList)
    (pad op : PaddingArg) (g : Int) (b : Bool) (dl : ScalarOrList)
    (df : String) (cfg : ConvTranspose1dConfig)
    (h : (ConvTranspose1dInit ic oc ks st pad op g b dl df).1 = .ok cfg) :
    ∃ st0 dl0 k0,
      convert_to_list st 1 "stride" = .ok st0 ∧
      convert_to_list dl 1 "dilation" = .ok dl0 ∧
      convert_to_list ks 1 "kernel_size" = .ok k0 ∧
      cfg = { groups := g, in_channels := ic, out_channels := oc,
              output_padding := op, data_format := df, bias := b,
              stride := st0, dilation := dl0, kernel_size := k0,
              padding := pad,
              weight_shape := [ic, Int.fdiv oc g] ++ k0 } := by
  unfold ConvTranspose1dInit at h
  split at h
  · simp at h
  · next st0 hst =>
    split at h
    · simp at h
    · next dl0 hdl =>
      split at h
      · simp at h
      · next k0 hks =>
        simp only [Except.ok.injEq] at h
        exact ⟨st0, dl0, k0, hst, hdl, hks, h.symm⟩

/-- Every run of `_ConvNd.__init__` either executed no allocation event or
succeeded. -/
theorem ConvNdInit_trace_cases (ic oc : Int) (ks : ScalarOrList) (tr : Bool)
    (dims : Nat) (st : ScalarOrList) (pad : PaddingArg) (pm : String)
    (op : PaddingArg) (dl : ScalarOrList) (g : Int) (df : String) :
    (ConvNdInit ic oc ks tr dims st pad pm op dl g df).2 = [] ∨
    ∃ cfg, (ConvNdInit ic oc ks tr dims st pad pm op dl g df).1 = .ok cfg := by
  unfold ConvNdInit
  repeat' split
  all_goals first
    | exact Or.inl rfl
    | exact Or.inr ⟨_, rfl⟩

/-- Every run of `Conv1d.__init__` either executed no allocation event or
succeeded. -/
theorem Conv1dInit_trace_cases (ic oc : Int) (ks st : ScalarOrList)
    (pad : PaddingArg) (dl : ScalarOrList) (g : Int) (pm : String) (b : Bool)
    (df : String) :
    (Conv1dInit ic oc ks st pad dl g pm b df).2 = [] ∨
    ∃ cfg, (Conv1dInit ic oc ks st pad dl g pm b df).1 = .ok cfg := by
  unfold Conv1dInit
  repeat' split
  all_goals first
    | exact Or.inl rfl
    | exact Or.inr ⟨_, rfl⟩

/-- Every run of `ConvTranspose1d.__init__` either executed no allocation
event or succeeded. -/
theorem ConvTranspose1dInit_trace_cases (ic oc : Int) (ks st : ScalarOrList)
    (pad op : PaddingArg) (g : Int) (b : Bool) (dl : ScalarOrList)
    (df : String) :
    (ConvTranspose1dInit ic oc ks st pad op g b dl df).2 = [] ∨
    ∃ cfg, (ConvTranspose1dInit ic oc ks st pad op g b dl df).1 = .ok cfg := by
  unfold ConvTranspose1dInit
  repeat' split
  all_goals first
    | exact Or.inl rfl
    | exact Or.inr ⟨_, rfl⟩

/-- Transposed construction through `_ConvNd.__init__` with scalar
parameters succeeds for every channel/group combination: the transposed
branch performs no divisibility check. -/
theorem ConvNdInit_transposed_scalar_ok (ic oc g : Int) (k s d : Int)
    (dims : Nat) (pad op : PaddingArg) (df : String) :
    (ConvNdInit ic oc (.scalar k) true dims (.scalar s) pad "zeros" op
        (.scalar d) g df).1
      = .ok { groups := g, in_channels := ic, out_channels := oc,
              data_format := df, stride := List.replicate dims s,
              dilation := List.replicate dims d,
              kernel_size := List.replicate dims k, padding := pad,
              padding_mode := "zeros", output_padding := op,
              reversed_padding_repeated_twice := none,
              weight_shape := [ic, Int.fdiv oc g] ++ List.replicate dims k,
              bias_shape := [oc] } := by
  rfl

/-- Non-transposed `_ConvNd.__init__` with a non-zero padding mode and a
single-int padding succeeds when groups divide `in_channels`, and records
the reversed, twice-repeated pre-pad list. -/
theorem ConvNdInit_nonzero_int_ok (pm : String)
    (hpm : nonzeroPaddingModes.contains pm = true) (ic oc g : Int)
    (hdiv : Int.fmod ic g = 0) (k s d kp : Int) (dims : Nat)
    (op : PaddingArg) (df : String) :
    (ConvNdInit ic oc (.scalar k) false dims (.scalar s) (.int kp) pm op
        (.scalar d) g df).1
      = .ok { groups := g, in_channels := ic, out_channels := oc,
              data_format := df, stride := List.replicate dims s,
              dilation := List.replicate dims d,
              kernel_size := List.replicate dims k, padding := .int kp,
              padding_mode := pm, output_padding := op,
              reversed_padding_repeated_twice :=
                some (_reverse_repeat_list (List.replicate dims kp) 2),
              weight_shape := [oc, Int.fdiv ic g] ++ List.replicate dims k,
              bias_shape := [oc] } := by
  have hv : pm ∈ validPaddingModes := by
    simpa using contains_nonzero_valid pm hpm
  have hpm' : pm ∈ nonzeroPaddingModes := by simpa using hpm
  unfold ConvNdInit
  simp [hv, hpm', hdiv, convert_to_list, convert_padding_to_list,
    PaddingArg.isInt, Except.map]

/-- `Conv1d.__init__` with a non-zero padding mode and a single-int
padding succeeds when groups divide `in_channels`; the stored padding is
the normalized singleton list doubled. -/
theorem Conv1dInit_nonzero_int_ok (pm : String)
    (hpm : nonzeroPaddingModes.contains pm = true) (ic oc g : Int)
    (hdiv : Int.fmod ic g = 0) (k s d kp : Int) (b : Bool) (df : String) :
    (Conv1dInit ic oc (.scalar k) (.scalar s) (.int kp) (.scalar d) g pm b
        df).1
      = .ok { in_channels := ic, out_channels := oc, groups := g,
              kernel_size := [k], stride := [s], dilation := [d],
              padding := .ints [kp, kp], padding_mode := pm,
              data_format := df, bias := b,
              weight_shape := [oc, Int.fdiv ic g, k] } := by
  have hv : pm ∈ validPaddingModes := by
    simpa using contains_nonzero_valid pm hpm
  have hpm' : pm ∈ nonzeroPaddingModes := by simpa using hpm
  unfold Conv1dInit
  simp [hv, hpm', hdiv, convert_to_list, convert_padding_to_list,
    PaddingArg.isInt, Except.map, List.replicate]

/-- `_ConvNd.__init__` rejects any non-int padding under a non-zero
padding mode, before anything else can fail. -/
theorem ConvNdInit_nonzero_nonint_reject (pm : String)
    (hpm : nonzeroPaddingModes.contains pm = true) (ic oc : Int)
    (ks st dl : ScalarOrList) (tr : Bool) (dims : Nat) (pad : PaddingArg)
    (hpad : pad.isInt = false) (op : PaddingArg) (g : Int) (df : String) :
    ConvNdInit ic oc ks tr dims st pad pm op dl g df
      = (.error (.invalidParameter
          "when padding_mode in nonzero modes, type of padding must be int"),
         []) := by
  have hv : pm ∈ validPaddingModes := by
    simpa using contains_nonzero_valid pm hpm
  have hpm' : pm ∈ nonzeroPaddingModes := by simpa using hpm
  unfold ConvNdInit
  simp [hv, hpm', hpad]

/-- `Conv1d.__init__` rejects any non-int padding under a non-zero padding
mode (after its earlier groups and normalization checks pass). -/
theorem Conv1dInit_nonzero_nonint_reject (pm : String)
    (hpm : nonzeroPaddingModes.contains pm = true) (ic oc g : Int)
    (hdiv : Int.fmod ic g = 0) (k s d : Int) (pad : PaddingArg)
    (hpad : pad.isInt = false) (b : Bool) (df : String) :
    Conv1dInit ic oc (.scalar k) (.scalar s) pad (.scalar d) g pm b df
      = (.error (.invalidParameter
          "when padding_mode in nonzero modes, type of padding must be int"),
         []) := by
  have hv : pm ∈ validPaddingModes := by
    simpa using contains_nonzero_valid pm hpm
  have hpm' : pm ∈ nonzeroPaddingModes := by simpa using hpm
  unfold Conv1dInit
  simp [hv, hpm', hpad, hdiv, convert_to_list]

/-- Non-transposed `_ConvNd.__init__` rejects `in_channels` not divisible
by `groups` (once the earlier mode and normalization checks pass). -/
theorem ConvNdInit_groups_reject (ic oc : Int) (ks st dl : ScalarOrList)
    (dims : Nat) (pad : PaddingArg) (pm : String) (op : PaddingArg)
    (g : Int) (df : String) (hdiv : Int.fmod ic g ≠ 0)
    (hpm : validPaddingModes.contains pm = true)
    (hpt : nonzeroPaddingModes.contains pm = true → pad.isInt = true)
    (st0 dl0 k0 : List Int)
    (hst : convert_to_list st dims "stride" = .ok st0)
    (hdl : convert_to_list dl dims "dilation" = .ok dl0)
    (hks : convert_to_list ks dims "kernel_size" = .ok k0) :
    ConvNdInit ic oc ks false dims st pad pm op dl g df
      = (.error (.invalidParameter "in_channels must be divisible by groups."),
         []) := by
  have hpm' : pm ∈ validPaddingModes := by simpa using hpm
  unfold ConvNdInit
  by_cases hnz : nonzeroPaddingModes.contains pm = true
  · have hnz' : pm ∈ nonzeroPaddingModes := by simpa using hnz
    simp [hpm', hnz', hpt hnz, hst, hdl, hks, hdiv]
  · have hnz' : pm ∉ nonzeroPaddingModes := by simpa using hnz
    simp [hpm', hnz', hst, hdl, hks, hdiv]

/-- `Conv1d.__init__` rejects `in_channels` not divisible by `groups` as
its very first check. -/
theorem Conv1dInit_groups_reject (ic oc : Int) (ks st : ScalarOrList)
    (pad : PaddingArg) (dl : ScalarOrList) (g : Int) (pm : String) (b : Bool)
    (df : String) (hdiv : Int.fmod ic g ≠ 0) :
    Conv1dInit ic oc ks st pad dl g pm b df
      = (.error (.invalidParameter "in_channels must be divisible by groups."),
         []) := by
  unfold Conv1dInit
  simp [hdiv]

/-! ### Claim theorems -/

/-- C1: for every constructed layer, the weight tensor shape is exactly
`[out_channels, in_channels // groups] ++ kernel_size` for ordinary
convolution and `[in_channels, out_channels // groups] ++ kernel_size`
for transposed convolution, with `kernel_size` the normalized per-axis
list whose length is the dimensionality. -/
theorem weight_shape_spec (ic oc : Int) (ks : ScalarOrList) (tr : Bool)
    (dims : Nat) (st : ScalarOrList) (pad : PaddingArg) (pm : String)
    (op : PaddingArg) (dl : ScalarOrList) (g : Int) (df : String)
    (cfg : ConvNdConfig)
    (h : (ConvNdInit ic oc ks tr dims st pad pm op dl g df).1 = .ok cfg)
    (ic1 oc1 : Int) (ks1 st1 : ScalarOrList) (pad1 : PaddingArg)
    (dl1 : ScalarOrList) (g1 : Int) (pm1 : String) (b1 : Bool) (df1 : String)
    (cfg1 : Conv1dConfig)
    (h1 : (Conv1dInit ic1 oc1 ks1 st1 pad1 dl1 g1 pm1 b1 df1).1 = .ok cfg1)
    (ic2 oc2 : Int) (ks2 st2 : ScalarOrList) (pad2 op2 : PaddingArg)
    (g2 : Int) (b2 : Bool) (dl2 : ScalarOrList) (df2 : String)
    (cfg2 : ConvTranspose1dConfig)
    (h2 : (ConvTranspose1dInit ic2 oc2 ks2 st2 pad2 op2 g2 b2 dl2 df2).1
            = .ok cfg2) :
    (tr = true → cfg.weight_shape = [ic, Int.fdiv oc g] ++ cfg.kernel_size)
    ∧ (tr = false → cfg.weight_shape = [oc, Int.fdiv ic g] ++ cfg.kernel_size)
    ∧ cfg.kernel_size.length = dims
    ∧ cfg1.weight_shape = [oc1, Int.fdiv ic1 g1] ++ cfg1.kernel_size
    ∧ cfg1.kernel_size.length = 1
    ∧ cfg2.weight_shape = [ic2, Int.fdiv oc2 g2] ++ cfg2.kernel_size
    ∧ cfg2.kernel_size.length = 1 := by
  obtain ⟨st0, dl0, k0, rprt, hst, hdl, hks, -, -, hcfg⟩ :=
    ConvNdInit_ok_inv ic oc ks tr dims st pad pm op dl g df cfg h
  obtain ⟨k1, st1v, dl1v, pad1v, hks1, hst1, hdl1, hcfg1⟩ :=
    Conv1dInit_ok_inv ic1 oc1 ks1 st1 pad1 dl1 g1 pm1 b1 df1 cfg1 h1
  obtain ⟨st2v, dl2v, k2, hst2, hdl2, hks2, hcfg2⟩ :=
    ConvTranspose1dInit_ok_inv ic2 oc2 ks2 st2 pad2 op2 g2 b2 dl2 df2 cfg2 h2
  subst hcfg hcfg1 hcfg2
  refine ⟨?_, ?_, ?_, ?_, ?_, ?_, ?_⟩
  · intro htr; simp [htr]
  · intro htr; simp [htr]
  · simpa using convert_to_list_length ks dims "kernel_size" k0 hks
  · simp
  · simpa using convert_to_list_length ks1 1 "kernel_size" k1 hks1
  · simp
  · simpa using convert_to_list_length ks2 1 "kernel_size" k2 hks2

def c1CfgNd : ConvNdConfig :=
  ((ConvNdInit 2 5 (.scalar 3) true 2 (.scalar 1) (.int 0) "zeros" (.int 0)
      (.scalar 1) 2 "NCHW").1).toOption.getD default

def c1Cfg1d : Conv1dConfig :=
  ((Conv1dInit 6 4 (.scalar 3) (.scalar 1) (.int 0) (.scalar 1) 2 "zeros"
      true "NCL").1).toOption.getD default

def c1CfgT1 : ConvTranspose1dConfig :=
  ((ConvTranspose1dInit 2 1 (.scalar 2) (.scalar 1) (.int 0) (.int 0) 1 true
      (.scalar 1) "NCL").1).toOption.getD default

theorem weight_shape_spec_witness :
    (ConvNdInit 2 5 (.scalar 3) true 2 (.scalar 1) (.int 0) "zeros" (.int 0)
        (.scalar 1) 2 "NCHW").1 = .ok c1CfgNd
    ∧ (Conv1dInit 6 4 (.scalar 3) (.scalar 1) (.int 0) (.scalar 1) 2 "zeros"
        true "NCL").1 = .ok c1Cfg1d
    ∧ (ConvTranspose1dInit 2 1 (.scalar 2) (.scalar 1) (.int 0) (.int 0) 1
        true (.scalar 1) "NCL").1 = .ok c1CfgT1
    ∧ ((true = true →
          c1CfgNd.weight_shape = [2, Int.fdiv 5 2] ++ c1CfgNd.kernel_size)
       ∧ (true = false →
          c1CfgNd.weight_shape = [5, Int.fdiv 2 2] ++ c1CfgNd.kernel_size)
       ∧ c1CfgNd.kernel_size.length = 2
       ∧ c1Cfg1d.weight_shape = [4, Int.fdiv 6 2] ++ c1Cfg1d.kernel_size
       ∧ c1Cfg1d.kernel_size.length = 1
       ∧ c1CfgT1.weight_shape = [2, Int.fdiv 1 1] ++ c1CfgT1.kernel_size
       ∧ c1CfgT1.kernel_size.length = 1) :=
  ⟨rfl, rfl, rfl,
   weight_shape_spec 2 5 (.scalar 3) true 2 (.scalar 1) (.int 0) "zeros"
     (.int 0) (.scalar 1) 2 "NCHW" c1CfgNd rfl
     6 4 (.scalar 3) (.scalar 1) (.int 0) (.scalar 1) 2 "zeros" true "NCL"
     c1Cfg1d rfl
     2 1 (.scalar 2) (.scalar 1) (.int 0) (.int 0) 1 true (.scalar 1) "NCL"
     c1CfgT1 rfl⟩

def convTranspose1dLayerCE : ConvTranspose1dConfig :=
  ((ConvTranspose1dInit 2 1 (.scalar 2) (.scalar 2) (.int 0) (.int 1) 1 true
      (.scalar 1) "NCL").1).toOption.getD default

/-- C2 counterexample: a concretely constructed `ConvTranspose1d` layer
with stored `output_padding = 1`, called with an explicit output size,
still passes `output_padding = 1` (not 0) to the backend. -/
theorem convtranspose1d_output_padding_not_zeroed :
    (ConvTranspose1dInit 2 1 (.scalar 2) (.scalar 2) (.int 0) (.int 1) 1 true
        (.scalar 1) "NCL").1 = .ok convTranspose1dLayerCE
    ∧ (ConvTranspose1dForward convTranspose1dLayerCE (Tensor.var 0)
          (some [9])).output_padding = PaddingArg.int 1
    ∧ PaddingArg.int 1 ≠ PaddingArg.int 0 :=
  ⟨rfl, rfl, by decide⟩

/-- C2 (amended): the 2D and 3D transposed forwards force
`output_padding` to 0 when an explicit output size is supplied and pass
the stored value otherwise; the 1D transposed forward always passes the
stored value, even when an explicit output size is supplied. -/
theorem output_padding_forwarding (cfg : ConvNdConfig)
    (c1 : ConvTranspose1dConfig) (x : Tensor) (sz : List Int) :
    (ConvTranspose2dForward cfg x (some sz)).output_padding = PaddingArg.int 0
    ∧ (ConvTranspose2dForward cfg x none).output_padding = cfg.output_padding
    ∧ (ConvTranspose3dForward cfg x (some sz)).output_padding = PaddingArg.int 0
    ∧ (ConvTranspose3dForward cfg x none).output_padding = cfg.output_padding
    ∧ (ConvTranspose1dForward c1 x (some sz)).output_padding = c1.output_padding
    ∧ (ConvTranspose1dForward c1 x none).output_padding = c1.output_padding :=
  ⟨rfl, rfl, rfl, rfl, rfl, rfl⟩

def convTransposeGroupsLayerCE : ConvNdConfig :=
  ((ConvTranspose2dInit 2 5 (.scalar 3) (.scalar 1) (.int 0) (.int 0)
      (.scalar 1) 2 "NCHW").1).toOption.getD default

/-- C3 counterexample: transposed construction with
`out_channels = 5, groups = 2` (not divisible) succeeds instead of being
rejected; the weight shape silently floors `5 // 2` to 2. -/
theorem transposed_groups_not_rejected :
    Int.fmod 5 2 ≠ 0
    ∧ (ConvTranspose2dInit 2 5 (.scalar 3) (.scalar 1) (.int 0) (.int 0)
        (.scalar 1) 2 "NCHW").1 = .ok convTransposeGroupsLayerCE
    ∧ convTransposeGroupsLayerCE.weight_shape = [2, 2, 3, 3] :=
  ⟨by decide, rfl, rfl⟩

/-- C3 (amended): plain convolution rejects `in_channels` not divisible
by `groups` at construction (both in `_ConvNd.__init__` and
`Conv1d.__init__`), but transposed construction performs no divisibility
check on `out_channels`: it always succeeds (given otherwise valid
parameters) and floors `out_channels // groups` in the weight shape. -/
theorem groups_divisibility (ic oc : Int) (ks st dl : ScalarOrList)
    (dims : Nat) (pad : PaddingArg) (pm : String) (op : PaddingArg)
    (g : Int) (df : String) (hdiv : Int.fmod ic g ≠ 0)
    (hpm : validPaddingModes.contains pm = true)
    (hpt : nonzeroPaddingModes.contains pm = true → pad.isInt = true)
    (st0 dl0 k0 : List Int)
    (hst : convert_to_list st dims "stride" = .ok st0)
    (hdl : convert_to_list dl dims "dilation" = .ok dl0)
    (hks : convert_to_list ks dims "kernel_size" = .ok k0)
    (ic1 oc1 : Int) (ks1 st1 : ScalarOrList) (pad1 : PaddingArg)
    (dl1 : ScalarOrList) (g1 : Int) (pm1 : String) (b1 : Bool) (df1 : String)
    (hdiv1 : Int.fmod ic1 g1 ≠ 0)
    (ic2 oc2 g2 : Int) (k2 s2 d2 : Int) (dims2 : Nat) (pad2 op2 : PaddingArg)
    (df2 : String) :
    ConvNdInit ic oc ks false dims st pad pm op dl g df
      = (.error (.invalidParameter "in_channels must be divisible by groups."),
         [])
    ∧ Conv1dInit ic1 oc1 ks1 st1 pad1 dl1 g1 pm1 b1 df1
      = (.error (.invalidParameter "in_channels must be divisible by groups."),
         [])
    ∧ ∃ cfg, (ConvNdInit ic2 oc2 (.scalar k2) true dims2 (.scalar s2) pad2
        "zeros" op2 (.scalar d2) g2 df2).1 = .ok cfg :=
  ⟨ConvNdInit_groups_reject ic oc ks st dl dims pad pm op g df hdiv hpm hpt
     st0 dl0 k0 hst hdl hks,
   Conv1dInit_groups_reject ic1 oc1 ks1 st1 pad1 dl1 g1 pm1 b1 df1 hdiv1,
   ⟨_, ConvNdInit_transposed_scalar_ok ic2 oc2 g2 k2 s2 d2 dims2 pad2 op2 df2⟩⟩

theorem groups_divisibility_witness :
    Int.fmod 5 2 ≠ 0
    ∧ validPaddingModes.contains "zeros" = true
    ∧ (nonzeroPaddingModes.contains "zeros" = true →
        (PaddingArg.int 0).isInt = true)
    ∧ convert_to_list (.scalar 1) 2 "stride" = .ok [1, 1]
    ∧ convert_to_list (.scalar 1) 2 "dilation" = .ok [1, 1]
    ∧ convert_to_list (.scalar 3) 2 "kernel_size" = .ok [3, 3]
    ∧ (ConvNdInit 5 4 (.scalar 3) false 2 (.scalar 1) (.int 0) "zeros"
        (.int 0) (.scalar 1) 2 "NCHW"
        = (.error (.invalidParameter "in_channels must be divisible by groups."),
           [])
       ∧ Conv1dInit 5 4 (.scalar 3) (.scalar 1) (.int 0) (.scalar 1) 2 "zeros"
           true "NCL"
         = (.error (.invalidParameter "in_channels must be divisible by groups."),
            [])
       ∧ ∃ cfg, (ConvNdInit 2 5 (.scalar 3) true 2 (.scalar 1) (.int 0)
           "zeros" (.int 0) (.scalar 1) 2 "NCHW").1 = .ok cfg) :=
  ⟨by decide, by decide, fun h => by decide, rfl, rfl, rfl,
   groups_divisibility 5 4 (.scalar 3) (.scalar 1) (.scalar 1) 2 (.int 0)
     "zeros" (.int 0) 2 "NCHW" (by decide) (by decide) (fun h => by decide)
     [1, 1] [1, 1] [3, 3] rfl rfl rfl
     5 4 (.scalar 3) (.scalar 1) (.int 0) (.scalar 1) 2 "zeros" true "NCL"
     (by decide)
     2 5 2 3 1 1 2 (.int 0) (.int 0) "NCHW"⟩

/-- C4: under a non-zero padding mode with uniform integer padding k and
dimensionality d, the stored pre-pad list is built by reversing the
per-axis padding list and duplicating each entry into a (before, after)
pair, yielding a flat list of 2*d entries all equal to k. -/
theorem prepad_reverse_repeat (t : List Int) (d : Nat) (k : Int)
    (pm : String) (hpm : nonzeroPaddingModes.contains pm = true)
    (ic oc : Int) (ks st dl : ScalarOrList) (op : PaddingArg) (g : Int)
    (df : String) (cfg : ConvNdConfig)
    (h : (ConvNdInit ic oc ks false d st (.int k) pm op dl g df).1
          = .ok cfg) :
    _reverse_repeat_list t 2 = t.reverse.flatMap (fun x => [x, x])
    ∧ _reverse_repeat_list (List.replicate d k) 2 = List.replicate (2 * d) k
    ∧ cfg.reversed_padding_repeated_twice
        = some (List.replicate (2 * d) k) := by
  obtain ⟨st0, dl0, k0, rprt, -, -, -, -, hbuild, hcfg⟩ :=
    ConvNdInit_ok_inv ic oc ks false d st (.int k) pm op dl g df cfg h
  obtain ⟨pl, hpl, hrprt⟩ := hbuild rfl hpm
  have hpl' : pl = List.replicate d k := by
    simpa [convert_padding_to_list] using hpl.symm
  refine ⟨?_, reverse_repeat_list_replicate d k, ?_⟩
  · simp [_reverse_repeat_list, List.replicate]
  · subst hcfg
    simp [hrprt, hpl', reverse_repeat_list_replicate]

def c4Cfg : ConvNdConfig :=
  ((ConvNdInit 6 4 (.scalar 3) false 2 (.scalar 1) (.int 2) "reflect" (.int 0)
      (.scalar 1) 2 "NCHW").1).toOption.getD default

theorem prepad_reverse_repeat_witness :
    nonzeroPaddingModes.contains "reflect" = true
    ∧ (ConvNdInit 6 4 (.scalar 3) false 2 (.scalar 1) (.int 2) "reflect"
        (.int 0) (.scalar 1) 2 "NCHW").1 = .ok c4Cfg
    ∧ (_reverse_repeat_list [1, 2] 2
          = ([1, 2] : List Int).reverse.flatMap (fun x => [x, x])
       ∧ _reverse_repeat_list (List.replicate 2 2) 2
           = List.replicate (2 * 2) 2
       ∧ c4Cfg.reversed_padding_repeated_twice
           = some (List.replicate (2 * 2) 2)) :=
  ⟨by decide, rfl,
   prepad_reverse_repeat [1, 2] 2 2 "reflect" (by decide) 6 4 (.scalar 3)
     (.scalar 1) (.scalar 1) (.int 0) 2 "NCHW" c4Cfg rfl⟩

/-- C5: under any non-zero padding mode, any padding specification that
is not a single integer (algorithm string, per-axis list, pair list) is
rejected at construction by both `_ConvNd.__init__` and
`Conv1d.__init__`, while a single integer padding is accepted. -/
theorem nonzero_mode_requires_int_padding (pm : String)
    (hpm : nonzeroPaddingModes.contains pm = true)
    (ic oc : Int) (ks st dl : ScalarOrList) (tr : Bool) (dims : Nat)
    (pad : PaddingArg) (hpad : pad.isInt = false) (op : PaddingArg)
    (g : Int) (df : String)
    (ic1 oc1 g1 : Int) (hdiv1 : Int.fmod ic1 g1 = 0) (k1 s1 d1 : Int)
    (b1 : Bool) (df1 : String)
    (k : Int) (ic2 oc2 g2 : Int) (hdiv2 : Int.fmod ic2 g2 = 0)
    (k2 s2 d2 : Int) (dims2 : Nat) (op2 : PaddingArg) (df2 : String) :
    ConvNdInit ic oc ks tr dims st pad pm op dl g df
      = (.error (.invalidParameter
          "when padding_mode in nonzero modes, type of padding must be int"),
         [])
    ∧ Conv1dInit ic1 oc1 (.scalar k1) (.scalar s1) pad (.scalar d1) g1 pm b1
        df1
      = (.error (.invalidParameter
          "when padding_mode in nonzero modes, type of padding must be int"),
         [])
    ∧ (∃ cfg, (ConvNdInit ic2 oc2 (.scalar k2) false dims2 (.scalar s2)
        (.int k) pm op2 (.scalar d2) g2 df2).1 = .ok cfg)
    ∧ (∃ cfg1, (Conv1dInit ic2 oc2 (.scalar k2) (.scalar s2) (.int k)
        (.scalar d2) g2 pm b1 df2).1 = .ok cfg1) :=
  ⟨ConvNdInit_nonzero_nonint_reject pm hpm ic oc ks st dl tr dims pad hpad op
     g df,
   Conv1dInit_nonzero_nonint_reject pm hpm ic1 oc1 g1 hdiv1 k1 s1 d1 pad hpad
     b1 df1,
   ⟨_, ConvNdInit_nonzero_int_ok pm hpm ic2 oc2 g2 hdiv2 k2 s2 d2 k dims2 op2
     df2⟩,
   ⟨_, Conv1dInit_nonzero_int_ok pm hpm ic2 oc2 g2 hdiv2 k2 s2 d2 k b1 df2⟩⟩

theorem nonzero_mode_requires_int_padding_witness :
    nonzeroPaddingModes.contains "reflect" = true
    ∧ (PaddingArg.ints [1, 1]).isInt = false
    ∧ Int.fmod 6 2 = 0
    ∧ (ConvNdInit 4 4 (.scalar 3) false 2 (.scalar 1) (.ints [1, 1])
        "reflect" (.int 0) (.scalar 1) 1 "NCHW"
        = (.error (.invalidParameter
            "when padding_mode in nonzero modes, type of padding must be int"),
           [])
       ∧ Conv1dInit 6 4 (.scalar 3) (.scalar 1) (.ints [1, 1]) (.scalar 1) 2
           "reflect" true "NCL"
         = (.error (.invalidParameter
             "when padding_mode in nonzero modes, type of padding must be int"),
            [])
       ∧ (∃ cfg, (ConvNdInit 6 4 (.scalar 3) false 2 (.scalar 1) (.int 2)
           "reflect" (.int 0) (.scalar 1) 2 "NCHW").1 = .ok cfg)
       ∧ (∃ cfg1, (Conv1dInit 6 4 (.scalar 3) (.scalar 1) (.int 2)
           (.scalar 1) 2 "reflect" true "NCHW").1 = .ok cfg1)) :=
  ⟨by decide, by decide, by decide,
   nonzero_mode_requires_int_padding "reflect" (by decide) 4 4 (.scalar 3)
     (.scalar 1) (.scalar 1) false 2 (.ints [1, 1]) (by decide) (.int 0) 1
     "NCHW" 6 4 2 (by decide) 3 1 1 true "NCL" 2 6 4 2 (by decide) 3 1 1 2
     (.int 0) "NCHW"⟩

/-- C6: when the padding mode is not zeros, every plain-convolution
forward call first pre-pads the input via the explicit pad primitive with
the resolved pre-pad list and the configured mode, and invokes the
backend convolution with native padding 0; with mode zeros no pre-padding
occurs and the stored padding is passed through. -/
theorem forward_prepad_zero_native (c1 c1z : Conv1dConfig)
    (c2 c2z c3 c3z : ConvNdConfig) (rp2 rp3 : List Int) (x : Tensor)
    (h1 : c1.padding_mode ≠ "zeros") (h1z : c1z.padding_mode = "zeros")
    (h2 : c2.padding_mode ≠ "zeros")
    (h2r : c2.reversed_padding_repeated_twice = some rp2)
    (h2z : c2z.padding_mode = "zeros")
    (h3 : c3.padding_mode ≠ "zeros")
    (h3r : c3.reversed_padding_repeated_twice = some rp3)
    (h3z : c3z.padding_mode = "zeros") :
    ((Conv1dForward c1 x).input
        = Tensor.padded x c1.padding c1.padding_mode c1.data_format
      ∧ (Conv1dForward c1 x).padding = PaddingArg.int 0)
    ∧ ((Conv1dForward c1z x).input = x
      ∧ (Conv1dForward c1z x).padding = c1z.padding)
    ∧ (∃ call, Conv2dForward c2 x = .ok call
      ∧ call.input
          = Tensor.padded x (.ints rp2) c2.padding_mode c2.data_format
      ∧ call.padding = none
      ∧ call.nativePadding = PaddingArg.int 0)
    ∧ (∃ call, Conv2dForward c2z x = .ok call
      ∧ call.input = x ∧ call.padding = some c2z.padding)
    ∧ (∃ call, Conv3dForward c3 x = .ok call
      ∧ call.input
          = Tensor.padded x (.ints rp3) c3.padding_mode c3.data_format
      ∧ call.padding = none
      ∧ call.nativePadding = PaddingArg.int 0)
    ∧ (∃ call, Conv3dForward c3z x = .ok call
      ∧ call.input = x ∧ call.padding = some c3z.padding) := by
  refine ⟨⟨?_, ?_⟩, ⟨?_, ?_⟩, ?_, ?_, ?_, ?_⟩
  · simp [Conv1dForward, h1]
  · simp [Conv1dForward, h1]
  · simp [Conv1dForward, h1z]
  · simp [Conv1dForward, h1z]
  · simp [Conv2dForward, h2, h2r, ConvNdCall.nativePadding]
  · simp [Conv2dForward, h2z, ConvNdCall.nativePadding]
  · simp [Conv3dForward, h3, h3r, ConvNdCall.nativePadding]
  · simp [Conv3dForward, h3z, ConvNdCall.nativePadding]

def c6Cfg1 : Conv1dConfig :=
  ((Conv1dInit 6 4 (.scalar 3) (.scalar 1) (.int 2) (.scalar 1) 2 "reflect"
      true "NCL").1).toOption.getD default

def c6Cfg1z : Conv1dConfig :=
  ((Conv1dInit 6 4 (.scalar 3) (.scalar 1) (.int 2) (.scalar 1) 2 "zeros"
      true "NCL").1).toOption.getD default

def c6Cfg2 : ConvNdConfig :=
  ((Conv2dInit 6 4 (.scalar 3) (.scalar 1) (.int 2) (.scalar 1) 2 "reflect"
      "NCHW").1).toOption.getD default

def c6Cfg2z : ConvNdConfig :=
  ((Conv2dInit 6 4 (.scalar 3) (.scalar 1) (.int 2) (.scalar 1) 2 "zeros"
      "NCHW").1).toOption.getD default

def c6Cfg3 : ConvNdConfig :=
  ((Conv3dInit 6 4 (.scalar 3) (.int 2) (.scalar 1) (.scalar 1) 2 "reflect"
      "NCDHW").1).toOption.getD default

def c6Cfg3z : ConvNdConfig :=
  ((Conv3dInit 6 4 (.scalar 3) (.int 2) (.scalar 1) (.scalar 1) 2 "zeros"
      "NCDHW").1).toOption.getD default

theorem forward_prepad_zero_native_witness :
    c6Cfg1.padding_mode ≠ "zeros"
    ∧ c6Cfg1z.padding_mode = "zeros"
    ∧ c6Cfg2.padding_mode ≠ "zeros"
    ∧ c6Cfg2.reversed_padding_repeated_twice = some [2, 2, 2, 2]
    ∧ c6Cfg2z.padding_mode = "zeros"
    ∧ c6Cfg3.padding_mode ≠ "zeros"
    ∧ c6Cfg3.reversed_padding_repeated_twice = some [2, 2, 2, 2, 2, 2]
    ∧ c6Cfg3z.padding_mode = "zeros"
    ∧ (((Conv1dForward c6Cfg1 (Tensor.var 0)).input
          = Tensor.padded (Tensor.var 0) c6Cfg1.padding c6Cfg1.padding_mode
              c6Cfg1.data_format
        ∧ (Conv1dForward c6Cfg1 (Tensor.var 0)).padding = PaddingArg.int 0)
       ∧ ((Conv1dForward c6Cfg1z (Tensor.var 0)).input = Tensor.var 0
        ∧ (Conv1dForward c6Cfg1z (Tensor.var 0)).padding = c6Cfg1z.padding)
       ∧ (∃ call, Conv2dForward c6Cfg2 (Tensor.var 0) = .ok call
        ∧ call.input = Tensor.padded (Tensor.var 0) (.ints [2, 2, 2, 2])
            c6Cfg2.padding_mode c6Cfg2.data_format
        ∧ call.padding = none
        ∧ call.nativePadding = PaddingArg.int 0)
       ∧ (∃ call, Conv2dForward c6Cfg2z (Tensor.var 0) = .ok call
        ∧ call.input = Tensor.var 0 ∧ call.padding = some c6Cfg2z.padding)
       ∧ (∃ call, Conv3dForward c6Cfg3 (Tensor.var 0) = .ok call
        ∧ call.input = Tensor.padded (Tensor.var 0) (.ints [2, 2, 2, 2, 2, 2])
            c6Cfg3.padding_mode c6Cfg3.data_format
        ∧ call.padding = none
        ∧ call.nativePadding = PaddingArg.int 0)
       ∧ (∃ call, Conv3dForward c6Cfg3z (Tensor.var 0) = .ok call
        ∧ call.input = Tensor.var 0 ∧ call.padding = some c6Cfg3z.padding)) :=
  ⟨by decide, by decide, by decide, by decide, by decide, by decide,
   by decide, by decide,
   forward_prepad_zero_native c6Cfg1 c6Cfg1z c6Cfg2 c6Cfg2z c6Cfg3 c6Cfg3z
     [2, 2, 2, 2] [2, 2, 2, 2, 2, 2] (Tensor.var 0) (by decide) (by decide)
     (by decide) (by decide) (by decide) (by decide) (by decide) (by decide)⟩

/-- C7: normalizing a scalar for dimensionality d in {1,2,3} yields the
list of d copies; a sequence whose length is not d fails with
ShapeMismatch naming the parameter (normalizer modelled from the spec). -/
theorem dim_list_normalization (d : Nat) (hd : d = 1 ∨ d = 2 ∨ d = 3)
    (s : Int) (name : String) (l : List Int) (hl : l.length ≠ d) :
    convert_to_list (.scalar s) d name = .ok (List.replicate d s)
    ∧ (List.replicate d s).length = d
    ∧ convert_to_list (.seq l) d name = .error (.shapeMismatch name) := by
  refine ⟨rfl, by simp, ?_⟩
  simp [convert_to_list, hl]

theorem dim_list_normalization_witness :
    ((2 : Nat) = 1 ∨ (2 : Nat) = 2 ∨ (2 : Nat) = 3)
    ∧ ([1, 2, 3] : List Int).length ≠ 2
    ∧ (convert_to_list (.scalar 7) 2 "stride" = .ok (List.replicate 2 7)
       ∧ (List.replicate 2 (7 : Int)).length = 2
       ∧ convert_to_list (.seq [1, 2, 3]) 2 "stride"
           = .error (.shapeMismatch "stride")) :=
  ⟨by decide, by decide,
   dim_list_normalization 2 (by decide) 7 "stride" [1, 2, 3] (by decide)⟩

/-- C8: whenever a construction-time check fails, the constructor raises
before computing the weight shape and before allocating any weight or
bias parameter: a failing run of `_ConvNd.__init__`, `Conv1d.__init__` or
`ConvTranspose1d.__init__` has an empty allocation-event trace. -/
theorem construction_atomicity (ic oc : Int) (ks : ScalarOrList) (tr : Bool)
    (dims : Nat) (st : ScalarOrList) (pad : PaddingArg) (pm : String)
    (op : PaddingArg) (dl : ScalarOrList) (g : Int) (df : String) (e : Err)
    (h : (ConvNdInit ic oc ks tr dims st pad pm op dl g df).1 = .error e)
    (ic1 oc1 : Int) (ks1 st1 : ScalarOrList) (pad1 : PaddingArg)
    (dl1 : ScalarOrList) (g1 : Int) (pm1 : String) (b1 : Bool) (df1 : String)
    (e1 : Err)
    (h1 : (Conv1dInit ic1 oc1 ks1 st1 pad1 dl1 g1 pm1 b1 df1).1 = .error e1)
    (ic2 oc2 : Int) (ks2 st2 : ScalarOrList) (pad2 op2 : PaddingArg)
    (g2 : Int) (b2 : Bool) (dl2 : ScalarOrList) (df2 : String) (e2 : Err)
    (h2 : (ConvTranspose1dInit ic2 oc2 ks2 st2 pad2 op2 g2 b2 dl2 df2).1
            = .error e2) :
    (ConvNdInit ic oc ks tr dims st pad pm op dl g df).2 = []
    ∧ (Conv1dInit ic1 oc1 ks1 st1 pad1 dl1 g1 pm1 b1 df1).2 = []
    ∧ (ConvTranspose1dInit ic2 oc2 ks2 st2 pad2 op2 g2 b2 dl2 df2).2 = [] := by
  refine ⟨?_, ?_, ?_⟩
  · rcases ConvNdInit_trace_cases ic oc ks tr dims st pad pm op dl g df with
      ht | ⟨cfg, hok⟩
    · exact ht
    · rw [hok] at h; simp at h
  · rcases Conv1dInit_trace_cases ic1 oc1 ks1 st1 pad1 dl1 g1 pm1 b1 df1 with
      ht | ⟨cfg, hok⟩
    · exact ht
    · rw [hok] at h1; simp at h1
  · rcases ConvTranspose1dInit_trace_cases ic2 oc2 ks2 st2 pad2 op2 g2 b2 dl2
      df2 with ht | ⟨cfg, hok⟩
    · exact ht
    · rw [hok] at h2; simp at h2

theorem construction_atomicity_witness :
    (ConvNdInit 4 4 (.scalar 3) false 2 (.scalar 1) (.int 0) "foo" (.int 0)
        (.scalar 1) 1 "NCHW").1
      = .error (.invalidParameter
          "padding_mode must be one of valid_padding_modes")
    ∧ (Conv1dInit 5 4 (.scalar 3) (.scalar 1) (.int 0) (.scalar 1) 2 "zeros"
        true "NCL").1
      = .error (.invalidParameter "in_channels must be divisible by groups.")
    ∧ (ConvTranspose1dInit 2 1 (.seq []) (.scalar 1) (.int 0) (.int 0) 1 true
        (.scalar 1) "NCL").1
      = .error (.shapeMismatch "kernel_size")
    ∧ ((ConvNdInit 4 4 (.scalar 3) false 2 (.scalar 1) (.int 0) "foo"
        (.int 0) (.scalar 1) 1 "NCHW").2 = []
       ∧ (Conv1dInit 5 4 (.scalar 3) (.scalar 1) (.int 0) (.scalar 1) 2
           "zeros" true "NCL").2 = []
       ∧ (ConvTranspose1dInit 2 1 (.seq []) (.scalar 1) (.int 0) (.int 0) 1
           true (.scalar 1) "NCL").2 = []) :=
  ⟨rfl, rfl, rfl,
   construction_atomicity 4 4 (.scalar 3) false 2 (.scalar 1) (.int 0) "foo"
     (.int 0) (.scalar 1) 1 "NCHW"
     (.invalidParameter "padding_mode must be one of valid_padding_modes") rfl
     5 4 (.scalar 3) (.scalar 1) (.int 0) (.scalar 1) 2 "zeros" true "NCL"
     (.invalidParameter "in_channels must be divisible by groups.") rfl
     2 1 (.seq []) (.scalar 1) (.int 0) (.int 0) 1 true (.scalar 1) "NCL"
     (.shapeMismatch "kernel_size") rfl⟩

/-- C9: per-call geometry resolution is deterministic and mutation-free:
running the state-threaded forward twice with identical inputs yields the
identical resolved call record, and the configuration state is unchanged
by a forward call. -/
theorem forward_resolution_deterministic (cfg : ConvNdConfig) (x : Tensor)
    (os : Option (List Int)) :
    ((ConvTranspose2dForwardSt x os).run cfg).2 = cfg
    ∧ ((ConvTranspose2dForwardSt x os).run cfg).1
        = ((ConvTranspose2dForwardSt x os).run
            (((ConvTranspose2dForwardSt x os).run cfg).2)).1
    ∧ ((Conv2dForwardSt x).run cfg).2 = cfg
    ∧ ((Conv2dForwardSt x).run cfg).1
        = ((Conv2dForwardSt x).run (((Conv2dForwardSt x).run cfg).2)).1 :=
  ⟨rfl, rfl, rfl, rfl⟩

/-- C10: every transposed layer operates with padding mode zeros: the
transposed constructors pass the base default "zeros", the transposed
branch of `_ConvNd.__init__` never builds a pre-pad list, and no
transposed forward call ever pre-pads its input. -/
theorem transposed_always_zeros_mode (icA ocA : Int) (ksA stA : ScalarOrList)
    (padA opA : PaddingArg) (dlA : ScalarOrList) (gA : Int) (dfA : String)
    (cfgA : ConvNdConfig)
    (hA : (ConvTranspose2dInit icA ocA ksA stA padA opA dlA gA dfA).1
            = .ok cfgA)
    (icB ocB : Int) (ksB stB : ScalarOrList) (padB opB : PaddingArg)
    (dlB : ScalarOrList) (gB : Int) (dfB : String) (cfgB : ConvNdConfig)
    (hB : (ConvTranspose3dInit icB ocB ksB stB padB opB dlB gB dfB).1
            = .ok cfgB)
    (c1 : ConvTranspose1dConfig) (x : Tensor) (os : Option (List Int)) :
    cfgA.padding_mode = "zeros"
    ∧ cfgA.reversed_padding_repeated_twice = none
    ∧ cfgB.padding_mode = "zeros"
    ∧ cfgB.reversed_padding_repeated_twice = none
    ∧ (ConvTranspose2dForward cfgA x os).input = x
    ∧ (ConvTranspose3dForward cfgB x os).input = x
    ∧ (ConvTranspose1dForward c1 x os).input = x := by
  obtain ⟨stA0, dlA0, kA0, rprtA, -, -, -, hnoneA, -, hcfgA⟩ :=
    ConvNdInit_ok_inv icA ocA ksA true 2 stA padA "zeros" opA dlA gA dfA cfgA
      hA
  obtain ⟨stB0, dlB0, kB0, rprtB, -, -, -, hnoneB, -, hcfgB⟩ :=
    ConvNdInit_ok_inv icB ocB ksB true 3 stB padB "zeros" opB dlB gB dfB cfgB
      hB
  have hA0 := hnoneA (Or.inl rfl)
  have hB0 := hnoneB (Or.inl rfl)
  subst hcfgA hcfgB
  exact ⟨rfl, by simp [hA0], rfl, by simp [hB0], rfl, rfl, rfl⟩

def c10CfgA : ConvNdConfig :=
  ((ConvTranspose2dInit 2 4 (.scalar 3) (.scalar 1) (.int 0) (.int 0)
      (.scalar 1) 1 "NCHW").1).toOption.getD default

def c10CfgB : ConvNdConfig :=
  ((ConvTranspose3dInit 2 4 (.scalar 3) (.scalar 1) (.int 0) (.int 0)
      (.scalar 1) 1 "NCDHW").1).toOption.getD default

theorem transposed_always_zeros_mode_witness :
    (ConvTranspose2dInit 2 4 (.scalar 3) (.scalar 1) (.int 0) (.int 0)
        (.scalar 1) 1 "NCHW").1 = .ok c10CfgA
    ∧ (ConvTranspose3dInit 2 4 (.scalar 3) (.scalar 1) (.int 0) (.int 0)
        (.scalar 1) 1 "NCDHW").1 = .ok c10CfgB
    ∧ (c10CfgA.padding_mode = "zeros"
       ∧ c10CfgA.reversed_padding_repeated_twice = none
       ∧ c10CfgB.padding_mode = "zeros"
       ∧ c10CfgB.reversed_padding_repeated_twice = none
       ∧ (ConvTranspose2dForward c10CfgA (Tensor.var 0) none).input
           = Tensor.var 0
       ∧ (ConvTranspose3dForward c10CfgB (Tensor.var 0) none).input
           = Tensor.var 0
       ∧ (ConvTranspose1dForward default (Tensor.var 0) none).input
           = Tensor.var 0) :=
  ⟨rfl, rfl,
   transposed_always_zeros_mode 2 4 (.scalar 3) (.scalar 1) (.int 0) (.int 0)
     (.scalar 1) 1 "NCHW" c10CfgA rfl
     2 4 (.scalar 3) (.scalar 1) (.int 0) (.int 0) (.scalar 1) 1 "NCDHW"
     c10CfgB rfl default (Tensor.var 0) none⟩

end PaddleConv
